import Mathlib

/-
Verification of push.js (src/push.js): a shallow embedding of the
capability-detection, permission and notification-lifecycle logic, with
theorems settling the specification claims.

Modelling conventions:
* A host environment is a record of which notification globals exist and
  what duck-typed shape they have (`W`).
* JavaScript runtime failures that the source can actually hit are made
  explicit with `Except JsErr`:
  - the source references an undeclared identifier `win` (lines 85, 105,
    129 of src/push.js), which raises a ReferenceError when evaluated;
  - calling `w.external.msIsSiteMode()` when that property is not a
    function raises a TypeError;
  - calling `notification.addEventListener` when the underlying object
    has no such method raises a TypeError.
* Permission strings are the three-valued `Perm`; a JavaScript
  `undefined` result is `Option.none`.
-/

namespace PushJs

/-- Permission strings, source lines 172-176 (`Permission.DEFAULT` etc.). -/
inductive Perm
  | granted
  | default
  | denied
deriving DecidableEq, Repr

/-- Runtime errors the source can raise while executing the embedded code. -/
inductive JsErr
  | refErrorWin
  | typeErrorNotCallable
  | typeErrorAddEventListener
deriving DecidableEq, Repr

/-- Duck-typed shape of `w.Notification` when that global exists. -/
structure NotifGlobal where
  permissionLevel : Option Perm
  permission : Option Perm
  hasRequestPermission : Bool
deriving DecidableEq, Repr

/-- Duck-typed shape of `w.webkitNotifications` when it exists: the value
the `checkPermission()` method would return, or `none` when the method is
absent. -/
structure WebkitGlobal where
  checkPermission : Option Nat
deriving DecidableEq, Repr

/-- Duck-typed shape of `w.external` when it exists. `msIsSiteMode` is
`none` when the property is not callable (invoking it raises a TypeError),
`some none` when calling it returns `undefined`, and `some (some b)` when
calling it returns the boolean `b`. -/
structure ExternalObj where
  msIsSiteMode : Option (Option Bool)
deriving DecidableEq, Repr

/-- Duck-typed shape of a native notification object, as probed by the
wrapper and the lifecycle code (`close`, `cancel`, `addEventListener`). -/
structure NotifObj where
  hasClose : Bool
  hasCancel : Bool
  hasAddEventListener : Bool
deriving DecidableEq, Repr

/-- A host environment: which globals exist and their shapes.
`mozNotification` is the truthiness of `navigator.mozNotification`.
`modernShape` and `mozShape` are the shapes of the objects the host
returns from `new w.Notification(...)` and
`navigator.mozNotification.createNotification(...)`. -/
structure W where
  notification : Option NotifGlobal
  webkitNotifications : Option WebkitGlobal
  mozNotification : Bool
  external : Option ExternalObj
  modernShape : NotifObj
  mozShape : NotifObj
deriving DecidableEq, Repr

/- ===================== CapabilityProbe (lines 255-279) ===================== -/

/-- The expression inside the `try` block of `self.isSupported`
(source lines 261-273), with JavaScript short-circuit evaluation:
`!!(w.Notification || w.webkitNotifications || navigator.mozNotification
|| (w.external && w.external.msIsSiteMode() !== undefined))`. -/
def probeExpr (w : W) : Except JsErr Bool :=
  if w.notification.isSome then Except.ok true
  else if w.webkitNotifications.isSome then Except.ok true
  else if w.mozNotification then Except.ok true
  else match w.external with
    | none => Except.ok false
    | some e =>
      match e.msIsSiteMode with
      | none => Except.error JsErr.typeErrorNotCallable
      | some r => Except.ok r.isSome

/-- `self.isSupported` (source lines 255-279): the probe expression with
its surrounding `try { ... } catch (e) {}`; any exception leaves the
initial value `false` in place. -/
def isSupported (w : W) : Bool :=
  match probeExpr w with
  | Except.ok b => b
  | Except.error _ => false

/-- Detector predicate for the ModernNotification variant. -/
def detectsModern (w : W) : Bool := w.notification.isSome

/-- Detector predicate for the LegacyWebkitNotification variant. -/
def detectsWebkit (w : W) : Bool := w.webkitNotifications.isSome

/-- Detector predicate for the MozillaMobileNotification variant. -/
def detectsMoz (w : W) : Bool := w.mozNotification

/-- Detector predicate for the SiteModeOverlay variant: `w.external`
exists, `msIsSiteMode` is callable, and calling it does not return
`undefined`. -/
def detectsSiteMode (w : W) : Bool :=
  match w.external with
  | none => false
  | some e =>
    match e.msIsSiteMode with
    | none => false
    | some r => r.isSome

/- ===================== PermissionAdapter ===================== -/

/-- The `Permissions` array, source line 178:
`[Permission.GRANTED, Permission.DEFAULT, Permission.DENIED]`. -/
def Permissions : List Perm := [Perm.granted, Perm.default, Perm.denied]

/-- Truthy `w.Notification && w.Notification.permissionLevel`. -/
def notifPermissionLevel (w : W) : Option Perm :=
  match w.notification with
  | some n => n.permissionLevel
  | none => none

/-- Truthy `w.Notification && w.Notification.permission`. -/
def notifPermission (w : W) : Option Perm :=
  match w.notification with
  | some n => n.permission
  | none => none

/-- Truthy `w.webkitNotifications && w.webkitNotifications.checkPermission`,
carrying the value `checkPermission()` would return. -/
def webkitCheck (w : W) : Option Nat :=
  match w.webkitNotifications with
  | some g => g.checkPermission
  | none => none

/-- `self.Permission.get` (source lines 215-245). The `var permission;`
left unassigned returns `undefined`, i.e. `Option.none`. Note two source
slips embedded faithfully: the Firefox-Mobile branch (line 236) reads
`Permissions.GRANTED`, a property absent on the `Permissions` array, so it
assigns `undefined`; and the final branch calls `w.external.msIsSiteMode()`
outside any try guard, so a non-callable `msIsSiteMode` raises. -/
def Permission_get (w : W) : Except JsErr (Option Perm) :=
  if isSupported w = false then Except.ok none
  else
    match notifPermissionLevel w with
    | some p => Except.ok (some p)
    | none =>
      match webkitCheck w with
      | some n => Except.ok (Permissions.get? n)
      | none =>
        match notifPermission w with
        | some p => Except.ok (some p)
        | none =>
          if w.mozNotification then Except.ok none
          else
            match w.external with
            | none => Except.ok none
            | some e =>
              match e.msIsSiteMode with
              | none => Except.error JsErr.typeErrorNotCallable
              | some r =>
                match r with
                | none => Except.ok none
                | some b => Except.ok (some (if b then Perm.granted else Perm.default))

/-- The callback argument passed to `Permission.request`: either a
function value or a non-callable value. -/
inductive CbVal
  | fn
  | notFn
deriving DecidableEq, Repr

/-- The effective callback after line 198
(`callback = isFunction(callback) ? callback : function () {};`). -/
inductive EffCb
  | supplied
  | noop
deriving DecidableEq, Repr

/-- Source line 198: substitute an empty function for a non-callable
callback. -/
def normalizeCallback : CbVal → EffCb
  | CbVal.fn => EffCb.supplied
  | CbVal.notFn => EffCb.noop

/-- Which native permission-request mechanism was invoked. -/
inductive RequestMech
  | webkitNative
  | modernNative
deriving DecidableEq, Repr

/-- Outcome of `self.Permission.request`: early return when unsupported;
the callback handed to a native request mechanism; or a silent
fall-through where no mechanism is invoked and the callback is dropped. -/
inductive RequestResult
  | notSupported
  | issued (m : RequestMech) (cb : EffCb)
  | dropped (cb : EffCb)
deriving DecidableEq, Repr

/-- Truthy `w.Notification && w.Notification.requestPermission`. -/
def modernHasRequest (w : W) : Bool :=
  match w.notification with
  | some n => n.hasRequestPermission
  | none => false

/-- Truthy `w.webkitNotifications && w.webkitNotifications.checkPermission`
as a boolean (the guard of the webkit branch of `request`). -/
def webkitHasCheck (w : W) : Bool := (webkitCheck w).isSome

/-- Whether either native request mechanism the source dispatches to
exists. -/
def hasNativeRequestMech (w : W) : Bool := webkitHasCheck w || modernHasRequest w

/-- `self.Permission.request` (source lines 192-209), translated
branch-for-branch: return if unsupported; normalize the callback; hand it
to `webkitNotifications.requestPermission` or
`Notification.requestPermission`; otherwise do nothing. -/
def Permission_request (w : W) (c : CbVal) : RequestResult :=
  if isSupported w = false then RequestResult.notSupported
  else
    let callback := normalizeCallback c
    if webkitHasCheck w then RequestResult.issued RequestMech.webkitNative callback
    else if modernHasRequest w then RequestResult.issued RequestMech.modernNative callback
    else RequestResult.dropped callback

/-- Host contract for the two native request mechanisms: each invokes the
callback it was handed exactly once when the request resolves; nothing
else ever invokes the callback. -/
def eventualInvocations : RequestResult → Nat
  | RequestResult.issued _ _ => 1
  | _ => 0

/-- The callback value `request` left behind: `none` when `request`
returned before the normalization line. -/
def effectiveCb : RequestResult → Option EffCb
  | RequestResult.notSupported => none
  | RequestResult.issued _ cb => some cb
  | RequestResult.dropped cb => some cb

/- ===================== NotificationAdapter & LifecycleBinder ===================== -/

/-- A sized icon record with 32px and 16px references (spec data model). -/
structure IconRecord where
  x32 : String
  x16 : String
deriving DecidableEq, Repr

/-- The possible values of `options.icon`. -/
inductive IconVal
  | str (s : String)
  | undef
  | record (r : IconRecord)
deriving DecidableEq, Repr

/-- A JavaScript value passed as a native icon argument. -/
inductive JsVal
  | undef
  | str (s : String)
deriving DecidableEq, Repr

/-- `isString` (source line 61): `obj && obj.constructor === String`; note
the empty string is falsy, so `isString("")` is falsy. -/
def isString : IconVal → Bool
  | IconVal.str s => s ≠ ""
  | _ => false

/-- `isUndefined` (source line 60). -/
def isUndefined : IconVal → Bool
  | IconVal.undef => true
  | _ => false

/-- Pass `options.icon` through unchanged (the then-arm of the ternary).
Only reached for a non-empty string or `undefined`. -/
def iconAsVal : IconVal → JsVal
  | IconVal.str s => JsVal.str s
  | IconVal.undef => JsVal.undef
  | IconVal.record _ => JsVal.undef

/-- Property read `options.icon.x32`; on a string it yields `undefined`.
Only reached for a record or the empty string given the ternary guard. -/
def iconX32 : IconVal → JsVal
  | IconVal.record r => JsVal.str r.x32
  | _ => JsVal.undef

/-- Property read `options.icon.x16`. -/
def iconX16 : IconVal → JsVal
  | IconVal.record r => JsVal.str r.x16
  | _ => JsVal.undef

/-- The ternary on source line 76:
`(isString(options.icon) || isUndefined(options.icon)) ? options.icon : options.icon.x32`. -/
def resolveIcon32 (icon : IconVal) : JsVal :=
  if isString icon || isUndefined icon then iconAsVal icon else iconX32 icon

/-- The ternary on source line 109, with `.x16`. -/
def resolveIcon16 (icon : IconVal) : JsVal :=
  if isString icon || isUndefined icon then iconAsVal icon else iconX16 icon

/-- The `options` record handed to `create`. Callback slots record whether
`isFunction` holds for the supplied value. -/
structure Options where
  icon : IconVal
  body : Option String
  tag : Option String
  timeout : Option Nat
  onShow : Bool
  onError : Bool
  onClick : Bool
  onClose : Bool
deriving DecidableEq, Repr

/-- Truthiness of `options.timeout` (the number 0 is falsy). -/
def timeoutTruthy : Option Nat → Bool
  | some n => n ≠ 0
  | none => false

/-- Which handler a registration installed. -/
inductive Slot
  | timeoutHandler
  | onShow
  | onError
  | onClick
  | onClose
deriving DecidableEq, Repr

/-- `notification.addEventListener(event, handler)`: raises a TypeError
when the underlying object has no such method. -/
def addEventListener (n : NotifObj) (ev : String) (s : Slot) :
    Except JsErr (String × Slot) :=
  if n.hasAddEventListener then Except.ok (ev, s)
  else Except.error JsErr.typeErrorAddEventListener

/-- Lifecycle wiring, source lines 138-165. The autoclose block (138-150)
is guarded by `notification && notification.addEventListener &&
options.timeout`; the four callback registrations (153-165) call
`addEventListener` unguarded. -/
def bind_lifecycle (n : NotifObj) (o : Options) :
    Except JsErr (List (String × Slot)) := do
  let l0 : List (String × Slot) :=
    if n.hasAddEventListener && timeoutTruthy o.timeout then
      [("show", Slot.timeoutHandler)]
    else []
  let l1 ← if o.onShow then do
      let r ← addEventListener n "show" Slot.onShow
      pure [r]
    else pure []
  let l2 ← if o.onError then do
      let r ← addEventListener n "error" Slot.onError
      pure [r]
    else pure []
  let l3 ← if o.onClick then do
      let r ← addEventListener n "click" Slot.onClick
      pure [r]
    else pure []
  let l4 ← if o.onClose then do
      let r1 ← addEventListener n "close" Slot.onClose
      let r2 ← addEventListener n "cancel" Slot.onClose
      pure [r1, r2]
    else pure []
  pure (l0 ++ l1 ++ l2 ++ l3 ++ l4)

/-- What the variant dispatch of `create_callback` constructed and
displayed. -/
inductive Constructed
  | modern (title : String) (icon : JsVal) (body : Option String) (tag : Option String)
  | moz (title : String) (body : Option String) (icon : IconVal)
deriving DecidableEq, Repr

/-- Result of a completed `create_callback` run. -/
structure CCResult where
  constructed : Constructed
  notification : NotifObj
  regs : List (String × Slot)
deriving DecidableEq, Repr

/-- Which native close primitive a `wrapper.close()` call reached. -/
inductive CloseAction
  | nativeClose
  | nativeCancel
  | noAction
deriving DecidableEq, Repr

/-- `wrapper.close` (source lines 116-135): dispatch to
`notification.close()`, else `notification.cancel()`, else the IE branch
whose guard `w.external && win.external.msIsSiteMode` reads the
undeclared identifier `win` (line 129) once `w.external` is truthy,
raising a ReferenceError before `msSiteModeClearIconOverlay` can run. -/
def wrapper_close (notification : NotifObj) (w : W) : Except JsErr CloseAction :=
  if notification.hasClose then Except.ok CloseAction.nativeClose
  else if notification.hasCancel then Except.ok CloseAction.nativeCancel
  else
    match w.external with
    | some _ => Except.error JsErr.refErrorWin
    | none => Except.ok CloseAction.noAction

/-- `create_callback` (source lines 68-165): variant dispatch, native
construction/display, then lifecycle wiring. The legacy-webkit branch
body (line 85) and the IE branch guard (line 105) both read the
undeclared identifier `win`, raising a ReferenceError. -/
def create_callback (w : W) (title : String) (o : Options) :
    Except JsErr CCResult := do
  let pair ←
    match w.notification with
    | some _ =>
        Except.ok (w.modernShape,
          Constructed.modern title (resolveIcon32 o.icon) o.body o.tag)
    | none =>
      match w.webkitNotifications with
      | some _ => Except.error JsErr.refErrorWin
      | none =>
        if w.mozNotification then
          Except.ok (w.mozShape, Constructed.moz title o.body o.icon)
        else Except.error JsErr.refErrorWin
  let regs ← bind_lifecycle pair.1 o
  Except.ok { constructed := pair.2, notification := pair.1, regs := regs }

/- ===================== Facade (lines 286-304) ===================== -/

/-- Observable events of a synchronous `create` run. -/
inductive CEvent
  | diagnostic
  | permissionQueried (p : Option Perm)
  | requestIssued (r : RequestResult)
deriving DecidableEq, Repr

/-- `self.create` (source lines 286-304): diagnose and return when
unsupported; query the permission level; when it is not `granted`, issue a
permission request whose continuation is `create_callback(title, options)`.
There is no else branch: when the permission is already `granted` the
function ends after the query. -/
def create (w : W) (title : String) (o : Options) :
    Except JsErr (List CEvent) :=
  if isSupported w = false then Except.ok [CEvent.diagnostic]
  else do
    let p ← Permission_get w
    if p = some Perm.granted then Except.ok [CEvent.permissionQueried p]
    else
      Except.ok [CEvent.permissionQueried p,
        CEvent.requestIssued (Permission_request w CbVal.fn)]

/-- Host model: a modern-variant permission request resolving with result
`r` updates `w.Notification.permission` before the registered continuation
runs. -/
def resolveModern (w : W) (r : Perm) : W :=
  { w with notification :=
      w.notification.map (fun n => { n with permission := some r }) }

/-- Host model: the continuation `function () { create_callback(title,
options); }` that `create` registers on the permission request, invoked
after the modern request resolves with result `r`. -/
def runModernContinuation (w : W) (r : Perm) (title : String) (o : Options) :
    Except JsErr CCResult :=
  create_callback (resolveModern w r) title o

/- ===================== Concrete environments and options ===================== -/

/-- Shape of a modern `Notification` object: `close` and
`addEventListener` exist, `cancel` does not. -/
def modernShape0 : NotifObj :=
  { hasClose := true, hasCancel := false, hasAddEventListener := true }

/-- The bare placeholder `{}` the site-mode branch assigns to
`notification` (source line 112): no methods at all. -/
def sitePlaceholder : NotifObj :=
  { hasClose := false, hasCancel := false, hasAddEventListener := false }

/-- An environment exposing no notification capability. -/
def wUnsup : W :=
  { notification := none, webkitNotifications := none, mozNotification := false,
    external := none, modernShape := modernShape0, mozShape := sitePlaceholder }

/-- A Firefox-Mobile-only environment: `navigator.mozNotification` is the
sole capability. -/
def wMozOnly : W :=
  { notification := none, webkitNotifications := none, mozNotification := true,
    external := none, modernShape := modernShape0, mozShape := sitePlaceholder }

/-- A modern `w.Notification` global whose `permission` property is the
string `default`. -/
def modGlobalDefault : NotifGlobal :=
  { permissionLevel := none, permission := some Perm.default,
    hasRequestPermission := true }

/-- A modern `w.Notification` global whose `permission` property is the
string `granted`. -/
def modGlobalGranted : NotifGlobal :=
  { permissionLevel := none, permission := some Perm.granted,
    hasRequestPermission := true }

/-- A modern environment whose permission level is `default`. -/
def wModDefault : W :=
  { notification := some modGlobalDefault,
    webkitNotifications := none, mozNotification := false, external := none,
    modernShape := modernShape0, mozShape := sitePlaceholder }

/-- A modern environment whose permission level is already `granted`. -/
def wModGranted : W :=
  { notification := some modGlobalGranted,
    webkitNotifications := none, mozNotification := false, external := none,
    modernShape := modernShape0, mozShape := sitePlaceholder }

/-- An IE site-mode-only environment: `w.external.msIsSiteMode()` returns
`true`, nothing else is present. -/
def wSiteOnly : W :=
  { notification := none, webkitNotifications := none, mozNotification := false,
    external := some { msIsSiteMode := some (some true) },
    modernShape := modernShape0, mozShape := sitePlaceholder }

/-- A modern granted environment that also has `w.external` (site mode
available alongside). -/
def wModExt : W :=
  { notification := some modGlobalGranted,
    webkitNotifications := none, mozNotification := false,
    external := some { msIsSiteMode := some (some true) },
    modernShape := modernShape0, mozShape := sitePlaceholder }

/-- An environment whose only capability signal is a malformed
`w.external`: `msIsSiteMode` exists but is not callable. -/
def wMalformedExt : W :=
  { notification := none, webkitNotifications := none, mozNotification := false,
    external := some { msIsSiteMode := none },
    modernShape := modernShape0, mozShape := sitePlaceholder }

/-- A webkit environment lacking `checkPermission`, with nothing else. -/
def wWebkitNoCheck : W :=
  { notification := none, webkitNotifications := some { checkPermission := none },
    mozNotification := false, external := none,
    modernShape := modernShape0, mozShape := sitePlaceholder }

/-- A webkit environment lacking `checkPermission` whose `w.external`
carries a non-callable `msIsSiteMode`: supported (via webkit), but
`Permission.get` falls through to the external branch and raises. -/
def wGetThrows : W :=
  { notification := none, webkitNotifications := some { checkPermission := none },
    mozNotification := false, external := some { msIsSiteMode := none },
    modernShape := modernShape0, mozShape := sitePlaceholder }

/-- Options with only a body, as in the spec scenario
`create("Hi", {body:"there"})`. -/
def oBody : Options :=
  { icon := IconVal.undef, body := some "there", tag := none, timeout := none,
    onShow := false, onError := false, onClick := false, onClose := false }

/-- Empty options. -/
def oEmpty : Options :=
  { icon := IconVal.undef, body := none, tag := none, timeout := none,
    onShow := false, onError := false, onClick := false, onClose := false }

/-- Options supplying only an `onShow` callback. -/
def oOnShow : Options :=
  { icon := IconVal.undef, body := none, tag := none, timeout := none,
    onShow := true, onError := false, onClick := false, onClose := false }

/-- Options supplying only a timeout. -/
def oTimeout : Options :=
  { icon := IconVal.undef, body := none, tag := none, timeout := some 5000,
    onShow := false, onError := false, onClick := false, onClose := false }

/-- Options carrying a sized icon record. -/
def oSizedIcon : Options :=
  { icon := IconVal.record { x32 := "icon-32.png", x16 := "icon-16.png" },
    body := none, tag := none, timeout := none,
    onShow := false, onError := false, onClick := false, onClose := false }

/- ===================== Claim theorems ===================== -/

/-- Claim C9: in an unsupported environment, `create` emits exactly one
diagnostic and nothing else: no permission query, no permission request,
no notification construction, and no exception. -/
theorem create_unsupported_diagnostic (w : W) (title : String) (o : Options)
    (h : isSupported w = false) :
    create w title o = Except.ok [CEvent.diagnostic] := by
  simp [create, h]

/-- Witness for `create_unsupported_diagnostic` at the capability-free
environment, with the spec scenario options `{body: "there"}`. -/
theorem create_unsupported_diagnostic_witness :
    isSupported wUnsup = false ∧
    create wUnsup "Hi" oBody = Except.ok [CEvent.diagnostic] :=
  ⟨rfl, create_unsupported_diagnostic wUnsup "Hi" oBody rfl⟩

/-- Claim C1 (code bug): in a modern-variant environment with permission
`default`, `create` queries the permission and issues exactly one request,
but the continuation it registers runs on any resolution: when the host
resolves the request to `denied`, the continuation still constructs and
displays a notification, while `Permission.get` on the resolved
environment reports `denied`. -/
theorem create_displays_after_denied_resolution :
    create wModDefault "Hi" oBody =
      Except.ok [CEvent.permissionQueried (some Perm.default),
        CEvent.requestIssued (RequestResult.issued RequestMech.modernNative EffCb.supplied)]
    ∧ runModernContinuation wModDefault Perm.denied "Hi" oBody =
      Except.ok { constructed := Constructed.modern "Hi" JsVal.undef (some "there") none,
                  notification := modernShape0, regs := [] }
    ∧ Permission_get (resolveModern wModDefault Perm.denied) =
        Except.ok (some Perm.denied) :=
  ⟨rfl, rfl, rfl⟩

/-- Claim C2 (code bug): in a supported modern environment whose
permission is already `granted`, `create` only queries the permission and
returns; its trace contains no display and no lifecycle binding, because
the source has no else branch after the permission check. -/
theorem create_granted_query_only :
    Permission_get wModGranted = Except.ok (some Perm.granted)
    ∧ create wModGranted "Hello" oEmpty =
        Except.ok [CEvent.permissionQueried (some Perm.granted)] :=
  ⟨rfl, rfl⟩

/-- Claim C3 counterexample: three supported environments where
`Permission.get` does not return one of the three enumerated states: the
Firefox-Mobile-only environment yields `undefined` (the source reads
`Permissions.GRANTED` off the `Permissions` array), a webkit environment
without `checkPermission` falls through to `undefined` rather than
`default`, and a supported environment with a non-callable
`external.msIsSiteMode` makes `get` raise a TypeError. -/
theorem permission_get_supported_undefined_cex :
    isSupported wMozOnly = true
    ∧ Permission_get wMozOnly = Except.ok none
    ∧ isSupported wWebkitNoCheck = true
    ∧ Permission_get wWebkitNoCheck = Except.ok none
    ∧ isSupported wGetThrows = true
    ∧ Permission_get wGetThrows = Except.error JsErr.typeErrorNotCallable :=
  ⟨rfl, rfl, rfl, rfl, rfl, rfl⟩

/-- Claim C3 amended: `Permission.get` returns `undefined` whenever
`isSupported` is false, but not only then: the mozilla variant and any
variant whose signal is absent also yield `undefined` (never `default`),
and a malformed `external.msIsSiteMode` reached on fall-through makes
`get` raise. -/
theorem permission_get_amended (w : W) (h : isSupported w = false) :
    Permission_get w = Except.ok none
    ∧ Permission_get wMozOnly = Except.ok none
    ∧ Permission_get wWebkitNoCheck = Except.ok none
    ∧ Permission_get wGetThrows = Except.error JsErr.typeErrorNotCallable := by
  refine ⟨?_, rfl, rfl, rfl⟩
  simp [Permission_get, h]

/-- Witness for `permission_get_amended` at the unsupported environment. -/
theorem permission_get_amended_witness :
    isSupported wUnsup = false ∧ Permission_get wUnsup = Except.ok none :=
  ⟨rfl, (permission_get_amended wUnsup rfl).1⟩

/-- Claim C4 (code bug): `wrapper.close()` on a notification object with
no close or cancel primitive raises a ReferenceError whenever
`w.external` is truthy (the site-mode case it is meant to serve), because
line 129 reads the undeclared identifier `win`; only when `w.external` is
absent is the call the claimed no-op. -/
theorem wrapper_close_no_primitive_throws :
    wrapper_close sitePlaceholder wSiteOnly = Except.error JsErr.refErrorWin
    ∧ wrapper_close sitePlaceholder wUnsup = Except.ok CloseAction.noAction :=
  ⟨rfl, rfl⟩

/-- Claim C5 (code bug): lifecycle binding on an object without
`addEventListener` (the site-mode placeholder) silently ignores the
timeout option as claimed, but a supplied `onShow` callback makes it
raise a TypeError instead of being skipped, because the registrations on
lines 153-165 are unguarded. -/
theorem bind_lifecycle_no_events_throws :
    bind_lifecycle sitePlaceholder oOnShow =
      Except.error JsErr.typeErrorAddEventListener
    ∧ bind_lifecycle sitePlaceholder oTimeout = Except.ok [] :=
  ⟨rfl, rfl⟩

/-- Claim C6 counterexample: in the Firefox-Mobile-only environment (a
binary variant), `Permission.request` falls through both native branches:
the callback is dropped and never invoked, not invoked synchronously. -/
theorem permission_request_binary_cex :
    isSupported wMozOnly = true
    ∧ Permission_request wMozOnly CbVal.fn = RequestResult.dropped EffCb.supplied
    ∧ eventualInvocations (Permission_request wMozOnly CbVal.fn) = 0 :=
  ⟨rfl, rfl, rfl⟩

/-- Claim C6 amended: in a supported environment, `Permission.request`
hands the normalized callback (a no-op when the supplied value is not
callable) to exactly one native request mechanism when the webkit or
modern mechanism exists, so it is eventually invoked exactly once; for the
binary variants no mechanism exists and the callback is never invoked. -/
theorem permission_request_amended (w : W) (c : CbVal) (h : isSupported w = true) :
    eventualInvocations (Permission_request w c) =
      (if hasNativeRequestMech w then 1 else 0)
    ∧ effectiveCb (Permission_request w c) = some (normalizeCallback c) := by
  simp only [Permission_request, hasNativeRequestMech, h]
  by_cases hw : webkitHasCheck w = true
  all_goals by_cases hm : modernHasRequest w = true
  all_goals simp [hw, hm, eventualInvocations, effectiveCb]

/-- Witness for `permission_request_amended` at the Firefox-Mobile-only
environment with a non-callable callback. -/
theorem permission_request_amended_witness :
    isSupported wMozOnly = true
    ∧ eventualInvocations (Permission_request wMozOnly CbVal.notFn) =
        (if hasNativeRequestMech wMozOnly then 1 else 0)
    ∧ effectiveCb (Permission_request wMozOnly CbVal.notFn) =
        some (normalizeCallback CbVal.notFn) :=
  ⟨rfl, (permission_request_amended wMozOnly CbVal.notFn rfl).1,
    (permission_request_amended wMozOnly CbVal.notFn rfl).2⟩

/-- Claim C7: `isSupported` is true exactly when one of the four variant
detectors matches, and an exception raised while probing (a non-callable
`msIsSiteMode`) is swallowed and folded into `false`. -/
theorem isSupported_iff_detectors :
    (∀ w : W, isSupported w =
      (detectsModern w || detectsWebkit w || detectsMoz w || detectsSiteMode w))
    ∧ probeExpr wMalformedExt = Except.error JsErr.typeErrorNotCallable
    ∧ isSupported wMalformedExt = false := by
  refine ⟨fun w => ?_, rfl, rfl⟩
  rcases w with ⟨n, wk, moz, ext, ms, mz⟩
  cases n with
  | some g => rfl
  | none =>
    cases wk with
    | some g => rfl
    | none =>
      cases moz with
      | true => rfl
      | false =>
        cases ext with
        | none => rfl
        | some e =>
          rcases e with ⟨msm⟩
          cases msm with
          | none => rfl
          | some r => rfl

/-- Claim C8 (code bug): display with a sized icon record resolves the
32px reference under the modern variant, but in a site-mode-only
environment `create_callback` raises a ReferenceError at the branch guard
(undeclared `win`, line 105) before the overlay icon is ever set. -/
theorem create_callback_icon_eval :
    create_callback wSiteOnly "News" oSizedIcon = Except.error JsErr.refErrorWin
    ∧ create_callback wModGranted "News" oSizedIcon =
        Except.ok { constructed := Constructed.modern "News" (JsVal.str "icon-32.png") none none,
                    notification := modernShape0, regs := [] } :=
  ⟨rfl, rfl⟩

/-- Claim C10 (code bug): `wrapper.close()` dispatches with the claimed
priority, invoking only `close` when present (even when `cancel` also
exists) and only `cancel` otherwise, but the final branch raises a
ReferenceError (undeclared `win`, line 129) instead of invoking the
site-mode overlay-clear. -/
theorem wrapper_close_priority_eval :
    wrapper_close { hasClose := true, hasCancel := true, hasAddEventListener := true }
        wModExt = Except.ok CloseAction.nativeClose
    ∧ wrapper_close { hasClose := false, hasCancel := true, hasAddEventListener := true }
        wModExt = Except.ok CloseAction.nativeCancel
    ∧ wrapper_close { hasClose := false, hasCancel := false, hasAddEventListener := true }
        wModExt = Except.error JsErr.refErrorWin :=
  ⟨rfl, rfl, rfl⟩

end PushJs
